import Mathlib

/-!
Verification of the support-bot moderation engine.

Shallow embedding of the repository's auto-moderation and moderation
handlers. Timestamps are milliseconds as natural numbers. JavaScript's
floating-point percentage comparison in the caps check is modelled by the
exact cross-multiplied integer comparison, which agrees with the source on
all inputs considered here. String length is the number of characters,
which coincides with JavaScript's length on the ASCII texts involved.
-/

namespace SupportBot

/-! ### Violation detector (src/bot/handlers/automod-handler.js) -/

/-- The fixed 5-second spam window from checkSpam. -/
def timeWindow : Nat := 5000

/-- checkSpam: filter the stored timestamps to the window, append now,
trip and reset when the count reaches the policy limit. Natural-number
truncated subtraction agrees with the source's signed comparison
(now - ts < 5000) because any timestamp not before now yields a
difference below the window in both readings. Returns the reported flag
and the new stored list. -/
def checkSpam (spamLimit : Nat) (timestamps : List Nat) (now : Nat) : Bool × List Nat :=
  let appended := (timestamps.filter fun ts => now - ts < timeWindow) ++ [now]
  if spamLimit ≤ appended.length then (true, []) else (false, appended)

/-- Number of characters matched by the regex class A-Z. -/
def capsCount (text : String) : Nat :=
  text.toList.countP fun c => decide ('A' ≤ c ∧ c ≤ 'Z')

/-- checkCaps: short messages are ignored, otherwise the uppercase ratio
over the whole text length is compared against the threshold
(capsPercent greater-or-equal threshold, cross-multiplied). -/
def checkCaps (text : String) (capsThreshold : Nat) : Bool :=
  if text.length < 5 then false
  else capsThreshold * text.length ≤ capsCount text * 100

/-- Characters rejected by the regex class for non-space, restricted to
the ASCII whitespace forms. -/
def notWhitespace (c : Char) : Bool :=
  !(c == ' ' || c == '\t' || c == '\n' || c == '\r' || c == '\x0b' || c == '\x0c')

/-- One match attempt of the URL regex at the head of the character list:
http or https, the separator, then at least one non-space character. -/
def urlHere : List Char → Bool
  | 'h' :: 't' :: 't' :: 'p' :: ':' :: '/' :: '/' :: c :: _ => notWhitespace c
  | 'h' :: 't' :: 't' :: 'p' :: 's' :: ':' :: '/' :: '/' :: c :: _ => notWhitespace c
  | _ => false

/-- The URL regex tested at every position of the text. -/
def hasUrl : List Char → Bool
  | [] => false
  | c :: rest => urlHere (c :: rest) || hasUrl rest

/-- checkLinks: the message contains an HTTP or HTTPS URL. -/
def checkLinks (text : String) : Bool := hasUrl text.toList

/-- The per-guild auto-moderation policy columns of guild_settings. -/
structure GuildSettings where
  auto_mod_enabled : Bool
  auto_mod_spam_limit : Nat
  auto_mod_caps_percent : Nat
  auto_mod_links_enabled : Bool

/-- The kind of violation reported for a message. -/
inductive Violation
  | spam
  | caps
  | links
deriving DecidableEq

/-- checkMessage: run the spam check first, then caps, then links (the
last one only when link detection is enabled); the first match is the
single violation handled. Returns the reported violation, if any, and
the user's new spam-window state. -/
def checkMessage (settings : GuildSettings) (timestamps : List Nat) (text : String)
    (now : Nat) : Option Violation × List Nat :=
  let r := checkSpam settings.auto_mod_spam_limit timestamps now
  if r.1 then (some Violation.spam, r.2)
  else if checkCaps text settings.auto_mod_caps_percent then (some Violation.caps, r.2)
  else if settings.auto_mod_links_enabled && checkLinks text then (some Violation.links, r.2)
  else (none, r.2)

/-! ### Sequential runs of the spam check -/

/-- Feed a sequence of message times through checkSpam, threading the
stored timestamp list, and record the reported flags. -/
def runSpam (spamLimit : Nat) : List Nat → List Nat → List Bool
  | [], _ => []
  | t :: rest, st =>
    let r := checkSpam spamLimit st t
    r.1 :: runSpam spamLimit rest r.2

/-- Pure counting model of checkSpam runs in which no timestamp ever
falls out of the window: the state is just the stored count. -/
def countRun (spamLimit : Nat) : Nat → Nat → List Bool
  | 0, _ => []
  | n + 1, c =>
    if spamLimit ≤ c + 1 then true :: countRun spamLimit n 0
    else false :: countRun spamLimit n (c + 1)

theorem filter_window_eq (now : Nat) (l : List Nat) (h : ∀ x ∈ l, now - x < timeWindow) :
    (l.filter fun ts => now - ts < timeWindow) = l :=
  List.filter_eq_self.mpr fun a ha => by simpa using h a ha

theorem checkSpam_all_recent (spamLimit : Nat) (st : List Nat) (now : Nat)
    (h : ∀ x ∈ st, now - x < timeWindow) :
    checkSpam spamLimit st now =
      if spamLimit ≤ st.length + 1 then (true, []) else (false, st ++ [now]) := by
  unfold checkSpam
  rw [filter_window_eq now st h]
  simp [List.length_append]

theorem runSpam_eq_countRun (spamLimit : Nat) (times : List Nat) :
    ∀ st : List Nat,
      (∀ x ∈ st, ∀ y ∈ times, y - x < timeWindow) →
      (∀ x ∈ times, ∀ y ∈ times, y - x < timeWindow) →
      runSpam spamLimit times st = countRun spamLimit times.length st.length := by
  induction times with
  | nil => intro st _ _; rfl
  | cons t rest ih =>
    intro st h1 h2
    have hrec : ∀ x ∈ st, t - x < timeWindow := fun x hx => h1 x hx t (by simp)
    have hcs := checkSpam_all_recent spamLimit st t hrec
    show (checkSpam spamLimit st t).1 :: runSpam spamLimit rest (checkSpam spamLimit st t).2 = _
    rw [hcs]
    by_cases hL : spamLimit ≤ st.length + 1
    · rw [if_pos hL]
      have ih' := ih []
        (by intro x hx; exact absurd hx (List.not_mem_nil x))
        (by intro x hx y hy; exact h2 x (List.mem_cons_of_mem t hx) y (List.mem_cons_of_mem t hy))
      simp only [List.length_cons, countRun, if_pos hL]
      simpa using ih'
    · rw [if_neg hL]
      have ih' := ih (st ++ [t])
        (by
          intro x hx y hy
          rcases List.mem_append.mp hx with hx' | hx'
          · exact h1 x hx' y (List.mem_cons_of_mem t hy)
          · have hxe : x = t := by simpa using hx'
            subst hxe
            exact h2 x (List.mem_cons_self x rest) y (List.mem_cons_of_mem x hy))
        (by intro x hx y hy; exact h2 x (List.mem_cons_of_mem t hx) y (List.mem_cons_of_mem t hy))
      simp only [List.length_cons, countRun, if_neg hL]
      simpa using ih'

theorem countRun_get (spamLimit : Nat) (hL : 1 ≤ spamLimit) :
    ∀ n c i : Nat, c + 1 ≤ spamLimit → i < n →
      (countRun spamLimit n c).get? i = some (decide ((c + i + 1) % spamLimit = 0)) := by
  intro n
  induction n with
  | zero => intro c i _ hi; exact absurd hi (by omega)
  | succ n ih =>
    intro c i hc hi
    by_cases hfire : spamLimit ≤ c + 1
    · have hcL : c + 1 = spamLimit := le_antisymm hc hfire
      cases i with
      | zero =>
        have hmod : (c + 0 + 1) % spamLimit = 0 := by
          rw [show c + 0 + 1 = spamLimit by omega]
          exact Nat.mod_self spamLimit
        simp [countRun, if_pos hfire, hmod]
      | succ i =>
        have harith : (0 + i + 1) % spamLimit = (c + (i + 1) + 1) % spamLimit := by
          rw [show c + (i + 1) + 1 = spamLimit + (i + 1) by omega, Nat.add_mod_left]
          simp
        simp only [countRun, if_pos hfire, List.get?_cons_succ]
        rw [ih 0 i (by omega) (by omega), harith]
    · cases i with
      | zero =>
        have hmod : ¬(c + 0 + 1) % spamLimit = 0 := by
          rw [Nat.mod_eq_of_lt (by omega)]
          omega
        simp [countRun, if_neg hfire, hmod]
      | succ i =>
        have harith : (c + 1 + i + 1) % spamLimit = (c + (i + 1) + 1) % spamLimit := by
          rw [show c + 1 + i + 1 = c + (i + 1) + 1 by omega]
        simp only [countRun, if_neg hfire, List.get?_cons_succ]
        rw [ih (c + 1) i (by omega) (by omega), harith]

/-- Claim C1: a spam-check call filters the stored list to the window,
appends now, and trips with a reset exactly when the count reaches the
limit; consequently, over a run of messages all inside one window from
the empty state, the check trips exactly at every multiple of the limit:
the first action fires at the message where the count first reaches the
limit, and the limit's worth of further messages is needed to fire
again. -/
theorem checkSpam_window_and_sequence (spamLimit : Nat) (hL : 1 ≤ spamLimit)
    (st : List Nat) (now : Nat) (times : List Nat)
    (hwin : ∀ x ∈ times, ∀ y ∈ times, y - x < timeWindow) :
    (checkSpam spamLimit st now =
      if spamLimit ≤ (st.filter fun ts => now - ts < timeWindow).length + 1
      then (true, ([] : List Nat))
      else (false, (st.filter fun ts => now - ts < timeWindow) ++ [now]))
  ∧ ∀ i, i < times.length →
      (runSpam spamLimit times []).get? i = some (decide ((i + 1) % spamLimit = 0)) := by
  constructor
  · unfold checkSpam
    simp [List.length_append]
  · intro i hi
    rw [runSpam_eq_countRun spamLimit times []
      (by intro x hx; exact absurd hx (List.not_mem_nil x)) hwin]
    have h := countRun_get spamLimit hL times.length 0 i (by omega) hi
    simpa using h

/-- Concrete instance of claim C1: with limit 2 the first call from the
empty state does not trip, and in the run over times 0, 1, 2 the second
message trips. -/
theorem checkSpam_window_and_sequence_witness :
    (checkSpam 2 [] 0 =
      if 2 ≤ (([] : List Nat).filter fun ts => 0 - ts < timeWindow).length + 1
      then (true, ([] : List Nat))
      else (false, (([] : List Nat).filter fun ts => 0 - ts < timeWindow) ++ [0]))
  ∧ (runSpam 2 [0, 1, 2] []).get? 1 = some (decide ((1 + 1) % 2 = 0)) :=
  ⟨(checkSpam_window_and_sequence 2 (by decide) [] 0 [0, 1, 2] (by decide)).1,
   (checkSpam_window_and_sequence 2 (by decide) [] 0 [0, 1, 2] (by decide)).2 1 (by decide)⟩

/-- Claim C5: with threshold 70 the caps check flags THIS IS LOUD and
does not flag This Is Fine. -/
theorem checkCaps_scenario :
    checkCaps "THIS IS LOUD" 70 = true ∧ checkCaps "This Is Fine" 70 = false := by
  constructor <;> decide

/-- Claim C6: the caps check never triggers on text shorter than five
characters, for every threshold. -/
theorem checkCaps_short (text : String) (capsThreshold : Nat) (h : text.length < 5) :
    checkCaps text capsThreshold = false := by
  unfold checkCaps
  rw [if_pos h]

/-- Concrete instance of claim C6: the two-character text HI is never
flagged, even at threshold zero. -/
theorem checkCaps_short_witness : checkCaps "HI" 0 = false :=
  checkCaps_short "HI" 0 (by decide)

/-- Claim C7: checkMessage evaluates spam first, then caps, then links;
the first match ends evaluation, so at most one violation is reported,
and the link check only matters when link detection is enabled. -/
theorem checkMessage_order (settings : GuildSettings) (st : List Nat) (text : String)
    (now : Nat) :
    ((checkSpam settings.auto_mod_spam_limit st now).1 = true →
      checkMessage settings st text now =
        (some Violation.spam, (checkSpam settings.auto_mod_spam_limit st now).2))
  ∧ ((checkSpam settings.auto_mod_spam_limit st now).1 = false →
      checkCaps text settings.auto_mod_caps_percent = true →
      checkMessage settings st text now =
        (some Violation.caps, (checkSpam settings.auto_mod_spam_limit st now).2))
  ∧ ((checkSpam settings.auto_mod_spam_limit st now).1 = false →
      checkCaps text settings.auto_mod_caps_percent = false →
      settings.auto_mod_links_enabled = true → checkLinks text = true →
      checkMessage settings st text now =
        (some Violation.links, (checkSpam settings.auto_mod_spam_limit st now).2))
  ∧ ((checkSpam settings.auto_mod_spam_limit st now).1 = false →
      checkCaps text settings.auto_mod_caps_percent = false →
      (settings.auto_mod_links_enabled = false ∨ checkLinks text = false) →
      checkMessage settings st text now =
        (none, (checkSpam settings.auto_mod_spam_limit st now).2)) := by
  refine ⟨?_, ?_, ?_, ?_⟩
  · intro h1
    simp [checkMessage, h1]
  · intro h1 h2
    simp [checkMessage, h1, h2]
  · intro h1 h2 h3 h4
    simp [checkMessage, h1, h2, h3, h4]
  · intro h1 h2 h3
    rcases h3 with h3 | h3 <;> simp [checkMessage, h1, h2, h3]

/-- Concrete instance of claim C7: on a loud message with an idle spam
window, the caps violation is the one reported. -/
theorem checkMessage_order_witness :
    checkMessage ⟨true, 5, 70, true⟩ [] "THIS IS LOUD" 0 = (some Violation.caps, [0]) :=
  (checkMessage_order ⟨true, 5, 70, true⟩ [] "THIS IS LOUD" 0).2.1 (by decide) (by decide)

/-! ### The in-memory spam cache keyed by user id -/

/-- One spam-check step against the process-wide messageCache, which the
source keys by the author's user id alone. The cache is modelled as a
total map from user ids to stored timestamp lists (absent users have the
empty list, matching the lazy creation in checkSpam). -/
def spamStep (spamLimit : Nat) (cache : Nat → List Nat) (user now : Nat) :
    Bool × (Nat → List Nat) :=
  let r := checkSpam spamLimit (cache user) now
  (r.1, fun v => if v = user then r.2 else cache v)

/-- A message event: originating guild, author, and arrival time. -/
structure MsgEvent where
  guild : Nat
  user : Nat
  time : Nat

/-- Process a stream of message events from several guilds through the
shared cache, recording for each message its guild and whether the spam
check flagged it. -/
def runGuildSpam (spamLimit : Nat) : List MsgEvent → (Nat → List Nat) → List (Nat × Bool)
  | [], _ => []
  | e :: rest, cache =>
    let r := spamStep spamLimit cache e.user e.time
    (e.guild, r.1) :: runGuildSpam spamLimit rest r.2

/-- Claim C9 counterexample: the cache is keyed by user id only, so two
runs that agree on a user's history in guild 1 but differ in guild 0
classify the same guild-1 message differently: after two quick messages
in guild 0, the user's first message in guild 1 is flagged as spam,
while in the run without the guild-0 history it is not. -/
theorem spamCache_cross_guild_interference :
    runGuildSpam 3 [⟨0, 7, 0⟩, ⟨0, 7, 1⟩, ⟨1, 7, 2⟩] (fun _ => []) =
      [(0, false), (0, false), (1, true)]
  ∧ runGuildSpam 3 [⟨1, 7, 2⟩] (fun _ => []) = [(1, false)] := by
  constructor <;> rfl

/-- Claim C9 amended: the spam window is maintained per user across all
servers. A step's classification and the user's resulting window depend
only on that user's cache entry, and a step by a different user leaves
this user's entry untouched; the same user's activity in another guild
does feed the same entry, so cross-guild isolation does not hold. -/
theorem spamStep_per_user (spamLimit : Nat) (c1 c2 : Nat → List Nat) (u v now : Nat)
    (h : c1 u = c2 u) :
    (spamStep spamLimit c1 u now).1 = (spamStep spamLimit c2 u now).1
  ∧ (spamStep spamLimit c1 u now).2 u = (spamStep spamLimit c2 u now).2 u
  ∧ (v ≠ u → (spamStep spamLimit c1 v now).2 u = c1 u) := by
  refine ⟨?_, ?_, ?_⟩
  · simp [spamStep, h]
  · simp [spamStep, h]
  · intro hvu
    have huv : ¬u = v := fun h' => hvu h'.symm
    simp [spamStep, huv]

/-- Concrete instance of the amended claim C9: caches agreeing on user 7
classify user 7's message identically, and a step by user 8 leaves
user 7's window unchanged. -/
theorem spamStep_per_user_witness :
    ((spamStep 3 (fun v => if v = 8 then [0] else []) 7 5).1 =
      (spamStep 3 (fun _ => []) 7 5).1)
  ∧ ((spamStep 3 (fun v => if v = 8 then [0] else []) 7 5).2 7 =
      (spamStep 3 (fun _ => []) 7 5).2 7)
  ∧ ((spamStep 3 (fun v => if v = 8 then [0] else []) 8 5).2 7 =
      (fun v => if v = 8 then [0] else ([] : List Nat)) 7) :=
  ⟨(spamStep_per_user 3 (fun v => if v = 8 then [0] else []) (fun _ => []) 7 8 5 (by decide)).1,
   (spamStep_per_user 3 (fun v => if v = 8 then [0] else []) (fun _ => []) 7 8 5 (by decide)).2.1,
   (spamStep_per_user 3 (fun v => if v = 8 then [0] else []) (fun _ => []) 7 8 5 (by decide)).2.2
     (by decide)⟩

/-! ### Sanction Ledger (mutes table, src/unnamed/part_001) -/

/-- One row of the mutes table. Ids are numeric, times are milliseconds,
a missing expires_at is a permanent mute, active defaults to true. -/
structure MuteRow where
  guild_id : Nat
  user_id : Nat
  moderator_id : Nat
  reason : String
  expires_at : Option Nat
  active : Bool

/-- db.addMute: a bare INSERT of a fresh row with active defaulting to
true; the ledger is a list, in insertion order. -/
def addMute (g u modId : Nat) (reason : String) (expiresAt : Option Nat)
    (ledger : List MuteRow) : List MuteRow :=
  ledger ++ [{ guild_id := g, user_id := u, moderator_id := modId, reason := reason,
               expires_at := expiresAt, active := true }]

/-- db.removeMute: UPDATE setting active to false on every row of the
(guild, user) pair that is currently active. -/
def removeMute (g u : Nat) (ledger : List MuteRow) : List MuteRow :=
  ledger.map fun r =>
    if r.guild_id = g ∧ r.user_id = u ∧ r.active = true then { r with active := false } else r

/-- db.getActiveMutes: SELECT of all active rows of a guild. -/
def getActiveMutes (g : Nat) (ledger : List MuteRow) : List MuteRow :=
  ledger.filter fun r => r.guild_id = g ∧ r.active = true

/-- Number of active rows for one (guild, user) pair. -/
def countActivePair (g u : Nat) (ledger : List MuteRow) : Nat :=
  (ledger.filter fun r => r.guild_id = g ∧ r.user_id = u ∧ r.active = true).length

/-- Claim C3 counterexample: addMute never deactivates prior rows, so
muting the same (guild, user) pair twice from the empty ledger leaves
two active rows, refuting the at-most-one-active invariant on a
reachable state. -/
theorem addMute_double_active :
    countActivePair 0 1 (addMute 0 1 2 "second" none (addMute 0 1 2 "first" none [])) = 2
  ∧ ¬countActivePair 0 1 (addMute 0 1 2 "second" none (addMute 0 1 2 "first" none [])) ≤ 1 := by
  constructor <;> decide

theorem countActivePair_removeMute (g u : Nat) (ledger : List MuteRow) :
    countActivePair g u (removeMute g u ledger) = 0 := by
  have h : ∀ r ∈ removeMute g u ledger,
      ¬(r.guild_id = g ∧ r.user_id = u ∧ r.active = true) := by
    intro r hr
    rcases List.mem_map.mp hr with ⟨s, _, rfl⟩
    by_cases hcond : s.guild_id = g ∧ s.user_id = u ∧ s.active = true
    · rw [if_pos hcond]
      simp
    · rw [if_neg hcond]
      exact hcond
  unfold countActivePair
  rw [List.filter_eq_nil_iff.mpr (by simpa using h)]
  rfl

theorem countActivePair_addMute (g u modId : Nat) (reason : String)
    (expiresAt : Option Nat) (ledger : List MuteRow) :
    countActivePair g u (addMute g u modId reason expiresAt ledger) =
      countActivePair g u ledger + 1 := by
  unfold countActivePair addMute
  rw [List.filter_append, List.length_append]
  simp

/-- Claim C3 amended: removing a mute deactivates every active row of
the pair, but creating a mute is a bare insert that increases the
number of active rows of the pair by one without touching prior rows;
the at-most-one-active invariant is therefore not enforced at creation
and fails on reachable states. -/
theorem muteLedger_active_rows (g u : Nat) (ledger : List MuteRow) :
    countActivePair g u (removeMute g u ledger) = 0
  ∧ ∀ modId reason expiresAt,
      countActivePair g u (addMute g u modId reason expiresAt ledger) =
        countActivePair g u ledger + 1 :=
  ⟨countActivePair_removeMute g u ledger,
   fun modId reason expiresAt => countActivePair_addMute g u modId reason expiresAt ledger⟩

/-! ### The mute command (src/bot/handlers/moderation-handler.js) -/

/-- The reply paths of the mute command. -/
inductive MuteReply
  | permissionDenied
  | noMention
  | muted
  | muteFailed
deriving DecidableEq

/-- The mute command after permission and mention checks: the external
timeout call runs first inside the try block; only on its success is the
Sanction row inserted; an exception jumps to the catch, which reports
failure and performs no ledger write. The external call's outcome is the
timeoutResult argument. -/
def muteCommand (timeoutResult : Except String Unit) (hasPerm hasMention : Bool)
    (g u modId : Nat) (reason : String) (expiresAt : Option Nat)
    (ledger : List MuteRow) : MuteReply × List MuteRow :=
  if !hasPerm then (MuteReply.permissionDenied, ledger)
  else if !hasMention then (MuteReply.noMention, ledger)
  else
    match timeoutResult with
    | Except.ok _ => (MuteReply.muted, addMute g u modId reason expiresAt ledger)
    | Except.error _ => (MuteReply.muteFailed, ledger)

/-- Claim C8: when the external timeout call fails, the mute command
reports failure and the ledger is returned unchanged: no Sanction row
is written. -/
theorem muteCommand_failure_atomic (e : String) (hasPerm hasMention : Bool)
    (g u modId : Nat) (reason : String) (expiresAt : Option Nat) (ledger : List MuteRow)
    (hp : hasPerm = true) (hm : hasMention = true) :
    muteCommand (Except.error e) hasPerm hasMention g u modId reason expiresAt ledger =
      (MuteReply.muteFailed, ledger) := by
  subst hp hm
  rfl

/-- Concrete instance of claim C8: a failing gateway call leaves a
one-row ledger exactly as it was. -/
theorem muteCommand_failure_atomic_witness :
    muteCommand (Except.error "Missing Permissions") true true 0 1 2 "spam" (some 600000)
      [⟨0, 9, 2, "old", none, true⟩] =
      (MuteReply.muteFailed, [⟨0, 9, 2, "old", none, true⟩]) :=
  muteCommand_failure_atomic "Missing Permissions" true true 0 1 2 "spam" (some 600000)
    [⟨0, 9, 2, "old", none, true⟩] rfl rfl

/-! ### The purge command (src/bot/handlers/moderation-handler.js) -/

/-- The outcome of a purge invocation: a denial, a validation rejection
issued before any deletion, or a bulk delete of the given count. -/
inductive PurgeResult
  | permissionDenied
  | rejected
  | bulkDelete (count : Int)
deriving DecidableEq

/-- The purge command: permission check, then the parsed numeric
argument (none models a NaN parse) is validated to 1..100, and only
then is bulkDelete invoked with the amount plus one so the invoking
command message is deleted too. -/
def purge (hasPerm : Bool) (amount : Option Int) : PurgeResult :=
  if !hasPerm then PurgeResult.permissionDenied
  else
    match amount with
    | none => PurgeResult.rejected
    | some n => if n < 1 ∨ 100 < n then PurgeResult.rejected else PurgeResult.bulkDelete (n + 1)

/-- Claim C10: an authorized purge of n in 1..100 bulk-deletes n + 1
messages, and any n outside 1..100 is rejected before any deletion. -/
theorem purge_spec (n : Int) :
    (1 ≤ n → n ≤ 100 → purge true (some n) = PurgeResult.bulkDelete (n + 1))
  ∧ ((n < 1 ∨ 100 < n) → purge true (some n) = PurgeResult.rejected) := by
  constructor
  · intro h1 h2
    have hcond : ¬(n < 1 ∨ 100 < n) := by omega
    simp [purge, hcond]
  · intro h
    simp [purge, h]

/-- Concrete instance of claim C10: purge 5 deletes six messages,
purge 150 is rejected. -/
theorem purge_spec_witness :
    purge true (some 5) = PurgeResult.bulkDelete 6
  ∧ purge true (some 150) = PurgeResult.rejected :=
  ⟨(purge_spec 5).1 (by decide) (by decide), (purge_spec 150).2 (Or.inr (by decide))⟩

/-! ### The standalone auto-moderation pipeline (src/bot/index.js) -/

/-- The observable side effects of one filterMessage run: the message
deletion, the direct notice to the author, and the automod_logs row. -/
inductive AutoModEffect
  | deleteMessage
  | dmUser (notice : String)
  | logAutoMod (guild user : Nat) (action reason : String)
deriving DecidableEq

/-- autoModeration.filterMessage: returns early with no effect when the
guild has no settings row or auto_mod_enabled is false, when the author
is a bot, or when the member holds an exempt permission; otherwise the
three detectors run in order with their effect triples, the thresholds
falling back to 5 and 70 when the stored value is zero (the source's
falsy-or defaulting). The three content detectors are parameters, so the
frame property below holds for every detector behaviour. -/
def filterMessage (dSpam dCaps : String → Nat → Bool) (dLinks : String → Bool)
    (settings : Option GuildSettings) (authorIsBot memberExempt : Bool)
    (guild user : Nat) (content : String) : List AutoModEffect :=
  if !(match settings with | some s => s.auto_mod_enabled | none => false) then []
  else if authorIsBot then []
  else if memberExempt then []
  else
    let spamLimit := match settings with
      | some s => if s.auto_mod_spam_limit = 0 then 5 else s.auto_mod_spam_limit
      | none => 5
    if dSpam content spamLimit then
      [AutoModEffect.deleteMessage,
       AutoModEffect.dmUser "Your message was deleted for spam.",
       AutoModEffect.logAutoMod guild user "SPAM" "Repeated characters detected"]
    else
      let capsPercent := match settings with
        | some s => if s.auto_mod_caps_percent = 0 then 70 else s.auto_mod_caps_percent
        | none => 70
      if dCaps content capsPercent then
        [AutoModEffect.deleteMessage,
         AutoModEffect.dmUser "Your message was deleted for excessive caps.",
         AutoModEffect.logAutoMod guild user "EXCESSIVE_CAPS" "Too many capital letters"]
      else if (match settings with
          | some s => s.auto_mod_links_enabled
          | none => false) && dLinks content then
        [AutoModEffect.deleteMessage,
         AutoModEffect.dmUser "Your message was deleted for containing suspicious links.",
         AutoModEffect.logAutoMod guild user "LINK_DETECTED" "Suspicious link detected"]
      else []

/-- Claim C4: under a policy with auto_mod_enabled false (or no settings
row at all), filterMessage takes no violation action and writes no
automod_logs row, regardless of the content and of what any detector
would say. -/
theorem filterMessage_disabled (dSpam dCaps : String → Nat → Bool) (dLinks : String → Bool)
    (settings : Option GuildSettings) (authorIsBot memberExempt : Bool)
    (guild user : Nat) (content : String)
    (h : ∀ s, settings = some s → s.auto_mod_enabled = false) :
    filterMessage dSpam dCaps dLinks settings authorIsBot memberExempt guild user content
      = [] := by
  cases settings with
  | none => simp [filterMessage]
  | some s =>
    have hs := h s rfl
    simp [filterMessage, hs]

/-- Concrete instance of claim C4: with auto-moderation disabled,
detectors that match everything still produce no effect. -/
theorem filterMessage_disabled_witness :
    filterMessage (fun _ _ => true) (fun _ _ => true) (fun _ => true)
      (some ⟨false, 5, 70, true⟩) false false 0 1 "SPAM!!! http://x" = [] :=
  filterMessage_disabled (fun _ _ => true) (fun _ _ => true) (fun _ => true)
    (some ⟨false, 5, 70, true⟩) false false 0 1 "SPAM!!! http://x"
    (by
      intro s hs
      injection hs with h2
      rw [← h2])

/-! ### Mute expiry reconciliation -/

/-- Whether a stored expiry is set and has passed at the given time. -/
def hasExpired (now : Nat) (r : MuteRow) : Bool :=
  match r.expires_at with
  | some e => decide (e ≤ now)
  | none => false

/-- Modelled from the spec: the Mute Expiry Reconciler's per-mute work
is not present under src/ (only the Sanction Ledger query getActiveMutes
is); per the spec, each active mute whose stored expiry is set and has
passed gets a lift_timeout attempt, whose outcome the liftOk oracle
gives: on success the row is marked inactive, on failure it is left
untouched, and permanent mutes are never considered. -/
def reconcileStep (liftOk : MuteRow → Bool) (now : Nat) (r : MuteRow) : MuteRow :=
  if r.active = true ∧ hasExpired now r = true ∧ liftOk r = true
  then { r with active := false } else r

/-- Modelled from the spec: one reconciliation tick over a guild's rows
of the ledger (the fetch being the source's getActiveMutes query), row
by row and independently, so one failed lift does not abort the rest. -/
def reconcileTick (liftOk : MuteRow → Bool) (g now : Nat) (ledger : List MuteRow) :
    List MuteRow :=
  ledger.map fun r => if r.guild_id = g then reconcileStep liftOk now r else r

/-- Claim C2: on a reconciliation tick, an active mute of the guild
whose expiry is set and has passed is lifted and marked inactive when
the external call succeeds; when it fails the row is left exactly as it
was and still shows up in the guild's active mutes, so the next tick
retries it; and a permanent mute (no expiry) is never auto-lifted. -/
theorem reconcileTick_per_mute (liftOk : MuteRow → Bool) (g now : Nat)
    (ledger : List MuteRow) (i : Nat) (r : MuteRow)
    (hi : ledger.get? i = some r) (hg : r.guild_id = g) :
    (∀ e, r.active = true → r.expires_at = some e → e ≤ now → liftOk r = true →
      (reconcileTick liftOk g now ledger).get? i = some { r with active := false })
  ∧ (∀ e, r.active = true → r.expires_at = some e → e ≤ now → liftOk r = false →
      (reconcileTick liftOk g now ledger).get? i = some r)
  ∧ (∀ e, r.active = true → r.expires_at = some e → e ≤ now → liftOk r = false →
      r ∈ getActiveMutes g (reconcileTick liftOk g now ledger))
  ∧ (r.expires_at = none → (reconcileTick liftOk g now ledger).get? i = some r) := by
  have hmap : (reconcileTick liftOk g now ledger).get? i =
      some (if r.guild_id = g then reconcileStep liftOk now r else r) := by
    unfold reconcileTick
    rw [List.get?_map, hi]
    rfl
  rw [if_pos hg] at hmap
  have hfail : ∀ e, r.active = true → r.expires_at = some e → e ≤ now → liftOk r = false →
      (reconcileTick liftOk g now ledger).get? i = some r := by
    intro e hactive hexp hnow hlift
    rw [hmap]
    unfold reconcileStep
    rw [if_neg (by simp [hlift])]
  refine ⟨?_, hfail, ?_, ?_⟩
  · intro e hactive hexp hnow hlift
    rw [hmap]
    unfold reconcileStep
    rw [if_pos ⟨hactive, by simp [hasExpired, hexp, hnow], hlift⟩]
  · intro e hactive hexp hnow hlift
    have hmem : r ∈ reconcileTick liftOk g now ledger :=
      List.get?_mem (hfail e hactive hexp hnow hlift)
    exact List.mem_filter.mpr ⟨hmem, by simp [hg, hactive]⟩
  · intro hexp
    rw [hmap]
    unfold reconcileStep
    rw [if_neg (by simp [hasExpired, hexp])]

/-- Concrete instance of claim C2: a mute expired at 10 is lifted at
time 20 when the external call succeeds, and a failing call leaves the
row active in the guild's active-mute set. -/
theorem reconcileTick_per_mute_witness :
    (reconcileTick (fun _ => true) 0 20 [⟨0, 1, 2, "r", some 10, true⟩]).get? 0 =
      some ⟨0, 1, 2, "r", some 10, false⟩
  ∧ ⟨0, 1, 2, "r", some 10, true⟩ ∈
      getActiveMutes 0 (reconcileTick (fun _ => false) 0 20 [⟨0, 1, 2, "r", some 10, true⟩]) :=
  ⟨(reconcileTick_per_mute (fun _ => true) 0 20 [⟨0, 1, 2, "r", some 10, true⟩] 0
      ⟨0, 1, 2, "r", some 10, true⟩ rfl rfl).1 10 rfl rfl (by omega) rfl,
   (reconcileTick_per_mute (fun _ => false) 0 20 [⟨0, 1, 2, "r", some 10, true⟩] 0
      ⟨0, 1, 2, "r", some 10, true⟩ rfl rfl).2.2.1 10 rfl rfl (by omega) rfl⟩

end SupportBot
